import Mathlib

/-!
A shallow embedding of `src/backend/main.py` of the youtube-assistant-rag
repository: the ingestion pipeline `process_video` and the query endpoint
`ask_question`, together with the on-disk state they manipulate
(`vectorstores/` files and FAISS directories) and the external providers
(transcript fetch, generation, embedding, similarity ranking), which the
code reaches only through network SDKs and which are therefore modelled as
explicit oracle parameters.

Python string methods used by the source (`strip`, `lower`, `split`,
`startswith`, `join`, slicing, the `in` substring test) are modelled by
structural functions over `List Char` so that all definitions reduce on
concrete inputs.
-/

namespace YTA

/-! ### Python string primitives -/

/-- Python whitespace as far as `str.strip()` is exercised here
(space, tab, newline, carriage return). -/
def pySpace (c : Char) : Bool := c = ' ' || c = '\t' || c = '\n' || c = '\r'

/-- Python `s.strip()`. -/
def pyStrip (s : String) : String :=
  String.mk (((s.data.dropWhile pySpace).reverse.dropWhile pySpace).reverse)

/-- Python `str.lower()` on one character (ASCII case mapping, the range
exercised by this program). -/
def pyLowerChar (c : Char) : Char :=
  if 'A' ≤ c && c ≤ 'Z' then Char.ofNat (c.toNat + 32) else c

/-- Python `s.lower()`. -/
def pyLower (s : String) : String := String.mk (s.data.map pyLowerChar)

/-- Python `sub in s` on character lists. -/
def containsSub (hay needle : List Char) : Bool :=
  match hay with
  | [] => needle.isEmpty
  | c :: rest => needle.isPrefixOf (c :: rest) || containsSub rest needle

/-- Python `sub in s`. -/
def strContains (s sub : String) : Bool := containsSub s.data sub.data

/-- Python `s.startswith(pre)`. -/
def pyStartsWith (s pre : String) : Bool := pre.data.isPrefixOf s.data

/-- Python `s[:n]`. -/
def pySliceTo (s : String) (n : Nat) : String := String.mk (s.data.take n)

/-- Helper for `pySplit`: scans the text, `skip` counts separator
characters still to be consumed after a match. -/
def pySplitAux (sep : List Char) : List Char → Nat → List Char → List (List Char)
  | [], _, acc => [acc.reverse]
  | _ :: rest, skip + 1, acc => pySplitAux sep rest skip acc
  | c :: rest, 0, acc =>
    if sep.isPrefixOf (c :: rest) then
      acc.reverse :: pySplitAux sep rest (sep.length - 1) []
    else
      pySplitAux sep rest 0 (c :: acc)

/-- Python `s.split(sep)` for a non-empty separator: the pieces between
non-overlapping left-to-right occurrences of `sep`. -/
def pySplit (s sep : String) : List String :=
  (pySplitAux sep.data s.data 0 []).map (fun cs => String.mk cs)

/-- Python `sep.join(items)`. -/
def pyJoin (sep : String) : List String → String
  | [] => ""
  | x :: xs => xs.foldl (fun acc s2 => acc ++ sep ++ s2) x

/-! ### Paths and the router -/

/-- `VECTOR_DIR = "vectorstores"` from the source. -/
def VECTOR_DIR : String := "vectorstores"

/-- `f"{VECTOR_DIR}/{video_id}"`: the FAISS directory for a video. -/
def faissPath (video_id : String) : String := VECTOR_DIR ++ "/" ++ video_id

/-- `f"{VECTOR_DIR}/{video_id}_transcript.txt"`. -/
def transcriptPath (video_id : String) : String :=
  VECTOR_DIR ++ "/" ++ video_id ++ "_transcript.txt"

/-- `f"{VECTOR_DIR}/{video_id}_summary.txt"`. -/
def summaryPath (video_id : String) : String :=
  VECTOR_DIR ++ "/" ++ video_id ++ "_summary.txt"

/-- The `global_keywords` list from `ask_question` (lines 143-147). -/
def global_keywords : List String :=
  ["summary", "summarize", "overall", "main idea",
   "key points", "explain", "explain like", "overview",
   "gist", "in short", "high level"]

/-- `req.question.strip().lower()` (line 120). -/
def normalizeQuestion (q : String) : String := pyLower (pyStrip q)

/-- `any(k in question for k in global_keywords)` (line 149); `question`
is the already-normalized question string. -/
def isGlobalQuestion (question : String) : Bool :=
  global_keywords.any (fun k => strContains question k)

/-! ### The chunker -/

/-- Modelled from the spec: the chunking step (line 94) calls the external
LangChain `RecursiveCharacterTextSplitter(chunk_size=250, chunk_overlap=40)`,
whose implementation is not part of this repository. Spec 4.1 gives the
Chunker contract, which this definition renders in closed form: an ordered
sequence of sliding windows of target length `L`, consecutive windows
overlapping by `O` (stride `L - O`), the final passage possibly shorter
than `L`, a transcript shorter than `L` yielding exactly one passage equal
to the whole transcript, and no empty passage. -/
def pyChunks (L O : Nat) (cs : List Char) : List (List Char) :=
  if cs = [] then []
  else if L ≤ O then [cs]
  else
    (List.range (1 + (cs.length - L + (L - O) - 1) / (L - O))).map
      (fun i => (cs.drop (i * (L - O))).take L)

/-- Modelled from the spec: string-level wrapper of `pyChunks`; stands for
`splitter.create_documents([transcript])` (line 95). -/
def chunkText (L O : Nat) (text : String) : List String :=
  (pyChunks L O text.data).map (fun cs => String.mk cs)

/-! ### Disk state and providers -/

/-- A persisted FAISS vector store for one video: it holds the passage
texts in original chunk order (`FAISS.from_documents`, line 103); the
embedding geometry itself lives in the external provider (`Providers.rank`). -/
structure FaissStore where
  chunks : List String
deriving DecidableEq

/-- The on-disk state under `vectorstores/`: plain files (the
`*_transcript.txt` and `*_summary.txt` records, keyed by path) and FAISS
directories (keyed by path). -/
structure Disk where
  files : String → Option String
  stores : String → Option FaissStore

/-- `open(path, "w").write(content)`. -/
def Disk.writeFile (d : Disk) (p c : String) : Disk :=
  { d with files := fun q => if q = p then some c else d.files q }

/-- `store.save_local(path)` (line 104), overwriting any prior index. -/
def Disk.writeStore (d : Disk) (p : String) (st : FaissStore) : Disk :=
  { d with stores := fun q => if q = p then some st else d.stores q }

/-- The external collaborators of the core, reached only through network
SDKs in the source: `fetchTranscript` is `YouTubeTranscriptApi().fetch`
(the returned segments' `"text"` fields; `none` is a fetch failure);
`generate` is `llm.invoke` and the LLM end of the RAG chain (`none` is a
provider failure); `embedFail` signals failure of
`GoogleGenerativeAIEmbeddings` / `FAISS.from_documents` at build time;
`loadFail` signals failure of `FAISS.load_local`; `rank` is the
similarity ordering the FAISS retriever induces on the stored chunks for a
query (spec 4.2: search returns the stored passages ordered by distance). -/
structure Providers where
  fetchTranscript : String → Option (List String)
  generate : String → Option String
  embedFail : Bool
  loadFail : Bool
  rank : List String → String → List String

/-! ### Ingestion: `GET /process` -/

/-- The summarization prompt f-string (lines 72-77). -/
def summaryPrompt (short_transcript : String) : String :=
  "\n        Summarize the following YouTube transcript (first 20k characters only)\n        in 10–20 bullet points:\n\n        " ++ short_transcript ++ "\n        "

/-- Python `str(...)` as applied by `PromptTemplate` formatting: `None`
prints as `"None"`. -/
def pyStr (s : Option String) : String :=
  match s with
  | some s => s
  | none => "None"

/-- The RAG `PromptTemplate` (lines 185-212) with `{summary}`, `{context}`
and `{question}` substituted. -/
def ragPrompt (summary : Option String) (context question : String) : String :=
  "\n                You are a YouTube video assistant with BOTH:\n                1. A global summary of the entire video\n                2. Local transcript chunks retrieved using FAISS\n                \n                Rules:\n                - If the question asks about specific details, use transcript context.\n                - Always consult summary for extra clarity.\n                - Never hallucinate. Only use provided info.\n                - Keep answers clear and clean.\n                \n                --------------------\n                GLOBAL SUMMARY:\n                " ++ pyStr summary ++ "\n                \n                --------------------\n                LOCAL CONTEXT:\n                " ++ context ++ "\n                \n                --------------------\n                QUESTION:\n                " ++ question ++ "\n                \n                Your answer:\n                "

/-- Result of `process_video`: the success JSON carries `len(chunks)` and
the summary text; error JSONs are modelled by their fixed message prefix
(the source appends the dynamic `str(e)` exception text). -/
inductive IngestResult where
  | ok (chunks : Nat) (summary : String)
  | err (msg : String)
deriving DecidableEq

/-- A run of the ingest endpoint: resulting disk and returned value. -/
structure IngestRun where
  disk : Disk
  result : IngestResult

/-- `GET /process` (`process_video`, lines 46-113): fetch transcript, join
segment texts with spaces, summarize the first 20000 characters, write the
`SUMMARY:` / `FULL TRANSCRIPT:` record, chunk the transcript, embed and
save the FAISS store. Each step fails fast, returning an error JSON. -/
def process_video (P : Providers) (d : Disk) (video_id : String) : IngestRun :=
  match P.fetchTranscript video_id with
  | none => ⟨d, .err "Transcript fetch failed"⟩
  | some segs =>
    let transcript := pyJoin " " segs
    let short_transcript := pySliceTo transcript 20000
    match P.generate (summaryPrompt short_transcript) with
    | none => ⟨d, .err "Summarization failed"⟩
    | some summary =>
      let d1 := d.writeFile (transcriptPath video_id)
        ("SUMMARY:\n" ++ summary ++ "\n\nFULL TRANSCRIPT:\n" ++ transcript)
      let chunks := chunkText 250 40 transcript
      if P.embedFail then ⟨d1, .err "Embedding/FAISS failed"⟩
      else ⟨d1.writeStore (faissPath video_id) ⟨chunks⟩, .ok chunks.length summary⟩

/-! ### Query: `POST /ask` -/

/-- `raw.split("SUMMARY:")[1].split("FULL TRANSCRIPT:")[0].strip()`
(line 140); in the source it runs only under `raw.startswith("SUMMARY:")`,
so the index-1 access is in range. -/
def parseSummaryRecord (raw : String) : String :=
  pyStrip (((pySplit ((pySplit raw "SUMMARY:").getD 1 "") "FULL TRANSCRIPT:").headD ""))

/-- The summary-loading block of `ask_question` (lines 128-140). Outer
`none`: the unguarded `open(transcript_path)` raises `FileNotFoundError`
(an unhandled exception). Inner `Option`: the Python `summary` variable,
which stays `None` when the record does not start with `"SUMMARY:"`. -/
def loadSummary (d : Disk) (video_id : String) : Option (Option String) :=
  match d.files (summaryPath video_id) with
  | some s => some (some s)
  | none =>
    match d.files (transcriptPath video_id) with
    | none => none
    | some raw =>
      some (if pyStartsWith raw "SUMMARY:" then some (parseSummaryRecord raw) else none)

/-- Observable provider-call events of one `ask` run: a FAISS index load,
a similarity search with its `k`, a generation call. -/
inductive Event where
  | faissLoad
  | search (k : Nat)
  | generateCall
deriving DecidableEq

/-- Outcome of `POST /ask`: a success JSON `{"answer": ..., "mode": ...}`
(`answer` is `none` when the Python value is `None`), an error JSON
(fixed message prefix), or an unhandled exception escaping the handler. -/
inductive AskOutcome where
  | ok (answer : Option String) (mode : String)
  | err (msg : String)
  | crash (msg : String)
deriving DecidableEq

/-- A run of the ask endpoint: outcome, provider-call trace, resulting disk. -/
structure AskRun where
  outcome : AskOutcome
  trace : List Event
  disk : Disk

/-- `POST /ask` (`ask_question`, lines 117-230): normalize the question,
guard on the existence of the FAISS directory, load the summary (crashing
on a missing transcript record), route by keyword; GLOBAL returns the
summary immediately, LOCAL loads the index, retrieves the top `k = 4`
chunks, joins them with blank lines (`format_docs`, lines 174-175) and
invokes the RAG chain on the normalized question. -/
def ask_question (P : Providers) (d : Disk) (video_id questionRaw : String) : AskRun :=
  let question := normalizeQuestion questionRaw
  match d.stores (faissPath video_id) with
  | none => ⟨.err "Video not processed. Click \x27Load Transcript\x27 first.", [], d⟩
  | some store =>
    match loadSummary d video_id with
    | none => ⟨.crash "FileNotFoundError", [], d⟩
    | some summary =>
      if isGlobalQuestion question then
        ⟨.ok summary "summary-mode", [], d⟩
      else if P.loadFail then
        ⟨.err "FAISS load failed", [.faissLoad], d⟩
      else
        let docs := (P.rank store.chunks question).take 4
        let context := pyJoin "\n\n" docs
        match P.generate (ragPrompt summary context question) with
        | none => ⟨.err "RAG failed", [.faissLoad, .search 4, .generateCall], d⟩
        | some answer =>
          ⟨.ok (some answer) "rag-mode", [.faissLoad, .search 4, .generateCall], d⟩

/-! ### Shared concrete objects for witnesses -/

/-- Provider stub: every external call fails; ranking returns the stored
chunks unchanged. -/
def stubProviders : Providers :=
  ⟨fun _ => none, fun _ => none, false, false, fun cs _ => cs⟩

/-- The empty disk. -/
def emptyDisk : Disk := ⟨fun _ => none, fun _ => none⟩

/-- A disk holding an ingested video `"v"`: transcript record and FAISS
directory, summary text `"S"`. -/
def ingestedDisk : Disk :=
  (emptyDisk.writeFile (transcriptPath "v")
      "SUMMARY:\nS\n\nFULL TRANSCRIPT:\nhello").writeStore (faissPath "v") ⟨["hello"]⟩

/-- A second ingested video `"w"` with summary text `"T"`. -/
def ingestedDiskW : Disk :=
  (emptyDisk.writeFile (transcriptPath "w")
      "SUMMARY:\nT\n\nFULL TRANSCRIPT:\nother").writeStore (faissPath "w") ⟨["other"]⟩

/-! ### Helper lemmas -/

/-- `containsSub` decides list infixhood. -/
theorem containsSub_iff_isInfix (needle hay : List Char) :
    containsSub hay needle = true ↔ List.IsInfix needle hay := by
  induction hay with
  | nil => simp [containsSub, List.isEmpty_iff]
  | cons c rest ih =>
    simp [containsSub, List.infix_cons_iff, ih, List.isPrefixOf_iff_prefix]

/-- In any successful `ask` response the mode string is fixed by the
router alone. -/
theorem ask_ok_mode_eq (P : Providers) (d : Disk) (v q : String) (a : Option String)
    (m : String) (h : (ask_question P d v q).outcome = AskOutcome.ok a m) :
    m = if isGlobalQuestion (normalizeQuestion q) then "summary-mode" else "rag-mode" := by
  simp only [ask_question] at h
  split at h
  · simp at h
  · split at h
    · simp at h
    · split at h
      · rename_i hg
        simp only [AskOutcome.ok.injEq] at h
        simp [hg, ← h.2]
      · rename_i hg
        split at h
        · simp at h
        · split at h
          · simp at h
          · simp only [AskOutcome.ok.injEq] at h
            simp [hg, ← h.2]

/-! ### C1 -/

/-- C1: for a video with no vector index on disk, `ask` fails with the
not-processed error for every question and never returns an answer. -/
theorem claim1_ask_unprocessed_always_fails (P : Providers) (d : Disk) (v q : String)
    (h : d.stores (faissPath v) = none) :
    (ask_question P d v q).outcome =
      AskOutcome.err "Video not processed. Click \x27Load Transcript\x27 first." ∧
    ∀ a m, (ask_question P d v q).outcome ≠ AskOutcome.ok a m := by
  simp [ask_question, h]

/-- C1 witness: the empty disk has no index for `"vid"`, and asking about
`"vid"` returns the not-processed error. -/
theorem claim1_witness :
    emptyDisk.stores (faissPath "vid") = none ∧
    ((ask_question stubProviders emptyDisk "vid" "what is this?").outcome =
        AskOutcome.err "Video not processed. Click \x27Load Transcript\x27 first." ∧
      ∀ a m, (ask_question stubProviders emptyDisk "vid" "what is this?").outcome ≠
        AskOutcome.ok a m) :=
  ⟨rfl, claim1_ask_unprocessed_always_fails stubProviders emptyDisk "vid" "what is this?" rfl⟩

/-! ### C3 -/

/-- C3 counterexample: on an ingested video, a GLOBAL question is answered
with mode string `"summary-mode"`, not `"summary"` as the claim states. -/
theorem claim3_counterexample :
    (ask_question stubProviders ingestedDisk "v" "Can you give me a summary?").outcome =
      AskOutcome.ok (some "S") "summary-mode" ∧
    "summary-mode" ≠ "summary" :=
  ⟨by decide, by decide⟩

/-- C3 amended: every successful `ask` result carries mode `"summary-mode"`
when the question routed GLOBAL and `"rag-mode"` when it routed LOCAL. -/
theorem claim3_amended_mode_strings (P : Providers) (d : Disk) (v q : String)
    (a : Option String) (m : String)
    (h : (ask_question P d v q).outcome = AskOutcome.ok a m) :
    (isGlobalQuestion (normalizeQuestion q) = true ∧ m = "summary-mode") ∨
    (isGlobalQuestion (normalizeQuestion q) = false ∧ m = "rag-mode") := by
  have hm := ask_ok_mode_eq P d v q a m h
  cases hg : isGlobalQuestion (normalizeQuestion q) <;> simp [hg] at hm <;> simp [hm, hg]

/-- C3 witness: the amended mode claim applied to a concrete GLOBAL ask. -/
theorem claim3_witness :
    (ask_question stubProviders ingestedDisk "v" "Can you give me a summary?").outcome =
      AskOutcome.ok (some "S") "summary-mode" ∧
    ((isGlobalQuestion (normalizeQuestion "Can you give me a summary?") = true ∧
        ("summary-mode" : String) = "summary-mode") ∨
      (isGlobalQuestion (normalizeQuestion "Can you give me a summary?") = false ∧
        ("summary-mode" : String) = "rag-mode")) :=
  ⟨by decide, claim3_amended_mode_strings stubProviders ingestedDisk "v"
    "Can you give me a summary?" (some "S") "summary-mode" (by decide)⟩

/-! ### C4 -/

/-- C4: the router classifies GLOBAL exactly when the trimmed, lower-cased
question contains a keyword of the fixed set as a substring, and the mode
of any successful answer is a function of the question text alone: two
successful asks of the same question, under any providers, disks and video
IDs, carry the same mode. -/
theorem claim4_router_keyword_iff_and_pure :
    (∀ q : String, isGlobalQuestion (normalizeQuestion q) = true ↔
        ∃ k ∈ global_keywords, List.IsInfix k.data (normalizeQuestion q).data) ∧
    (∀ (P P2 : Providers) (d d2 : Disk) (v v2 q : String) (a a2 : Option String)
        (m m2 : String),
        (ask_question P d v q).outcome = AskOutcome.ok a m →
        (ask_question P2 d2 v2 q).outcome = AskOutcome.ok a2 m2 → m = m2) := by
  constructor
  · intro q
    simp [isGlobalQuestion, strContains, List.any_eq_true, containsSub_iff_isInfix]
  · intro P P2 d d2 v v2 q a a2 m m2 h1 h2
    rw [ask_ok_mode_eq P d v q a m h1, ask_ok_mode_eq P2 d2 v2 q a2 m2 h2]

/-- C4 witness: the same question asked about two different ingested videos
(different disks, different summaries) yields the same mode. -/
theorem claim4_witness :
    (ask_question stubProviders ingestedDisk "v" "summary please").outcome =
      AskOutcome.ok (some "S") "summary-mode" ∧
    (ask_question stubProviders ingestedDiskW "w" "summary please").outcome =
      AskOutcome.ok (some "T") "summary-mode" ∧
    ("summary-mode" : String) = "summary-mode" :=
  ⟨by decide, by decide,
    claim4_router_keyword_iff_and_pure.2 stubProviders stubProviders ingestedDisk
      ingestedDiskW "v" "w" "summary please" (some "S") (some "T") "summary-mode"
      "summary-mode" (by decide) (by decide)⟩

/-! ### C9 -/

/-- C9: `ask` never modifies the persisted state: the disk after any ask
call, on any route and outcome, is the disk before it. -/
theorem claim9_ask_never_writes (P : Providers) (d : Disk) (v q : String) :
    (ask_question P d v q).disk = d := by
  simp only [ask_question]
  split
  · rfl
  · split
    · rfl
    · split
      · rfl
      · split
        · rfl
        · split <;> rfl

/-! ### C2 -/

/-- C2: a GLOBAL question on an ingested video with a readable summary is
answered with the cached summary directly, with an empty provider-call
trace (no index load, no search, no generation), and every GLOBAL question
on the same disk and video, under any providers, receives the identical
outcome. -/
theorem claim2_global_returns_cached_summary (P : Providers) (d : Disk) (v : String)
    (store : FaissStore) (summary : Option String) (q : String)
    (hs : d.stores (faissPath v) = some store)
    (hl : loadSummary d v = some summary)
    (hg : isGlobalQuestion (normalizeQuestion q) = true) :
    (ask_question P d v q).outcome = AskOutcome.ok summary "summary-mode" ∧
    (ask_question P d v q).trace = [] ∧
    ∀ (P2 : Providers) (q2 : String), isGlobalQuestion (normalizeQuestion q2) = true →
      (ask_question P2 d v q2).outcome = (ask_question P d v q).outcome := by
  refine ⟨?_, ?_, ?_⟩
  · simp [ask_question, hs, hl, hg]
  · simp [ask_question, hs, hl, hg]
  · intro P2 q2 hg2
    simp [ask_question, hs, hl, hg, hg2]

/-- C2 witness: two different GLOBAL questions on the ingested video `"v"`
both answered by the cached summary `"S"` with no provider calls. -/
theorem claim2_witness :
    isGlobalQuestion (normalizeQuestion "Can you give me a summary?") = true ∧
    (ask_question stubProviders ingestedDisk "v" "Can you give me a summary?").outcome =
      AskOutcome.ok (some "S") "summary-mode" ∧
    (ask_question stubProviders ingestedDisk "v" "Can you give me a summary?").trace = [] ∧
    (ask_question stubProviders ingestedDisk "v" "give me an overview").outcome =
      (ask_question stubProviders ingestedDisk "v" "Can you give me a summary?").outcome :=
  have h := claim2_global_returns_cached_summary stubProviders ingestedDisk "v"
    ⟨["hello"]⟩ (some "S") "Can you give me a summary?" (by decide) (by decide) (by decide)
  ⟨by decide, h.1, h.2.1, h.2.2 stubProviders "give me an overview" (by decide)⟩

/-! ### C5 -/

/-- A disk where video `"v"` has a FAISS directory but a transcript record
that does not start with `"SUMMARY:"` (a corrupt/unparseable record). -/
def corruptDisk : Disk :=
  (emptyDisk.writeFile (transcriptPath "v") "garbage").writeStore (faissPath "v") ⟨["c"]⟩

/-- A disk where video `"v"` has a FAISS directory but neither a summary
file nor a transcript record. -/
def brokenDisk : Disk := emptyDisk.writeStore (faissPath "v") ⟨["c"]⟩

/-- C5 counterexample: with an unparseable summary record, a GLOBAL ask
does not surface any error: it succeeds with a null answer (the silent
substitution the claim rules out). -/
theorem claim5_counterexample :
    (ask_question stubProviders corruptDisk "v" "give me a summary").outcome =
      AskOutcome.ok none "summary-mode" := by decide

/-- C5 amended: with the vector index present and no dedicated summary
file, an unparseable transcript record makes `ask` proceed silently with a
null summary (a GLOBAL question returns answer `none` with no error),
and an absent transcript record makes `ask` raise an unhandled
`FileNotFoundError` rather than a structured not-found error. -/
theorem claim5_amended_summary_degradation (P : Providers) (d : Disk) (v : String)
    (store : FaissStore)
    (hs : d.stores (faissPath v) = some store)
    (hsf : d.files (summaryPath v) = none) :
    (∀ raw, d.files (transcriptPath v) = some raw →
      pyStartsWith raw "SUMMARY:" = false →
      ∀ q, isGlobalQuestion (normalizeQuestion q) = true →
        (ask_question P d v q).outcome = AskOutcome.ok none "summary-mode") ∧
    (d.files (transcriptPath v) = none →
      ∀ q, (ask_question P d v q).outcome = AskOutcome.crash "FileNotFoundError") := by
  constructor
  · intro raw hraw hns q hg
    simp [ask_question, loadSummary, hs, hsf, hraw, hns, hg]
  · intro hnone q
    simp [ask_question, loadSummary, hs, hsf, hnone]

/-- C5 witness: the amended behaviour at two concrete disks — the corrupt
record yields a silent null-summary answer, the missing record a crash. -/
theorem claim5_witness :
    pyStartsWith "garbage" "SUMMARY:" = false ∧
    (ask_question stubProviders corruptDisk "v" "give me a summary").outcome =
      AskOutcome.ok none "summary-mode" ∧
    (ask_question stubProviders brokenDisk "v" "give me a summary").outcome =
      AskOutcome.crash "FileNotFoundError" :=
  have h1 := claim5_amended_summary_degradation stubProviders corruptDisk "v"
    ⟨["c"]⟩ (by decide) (by decide)
  have h2 := claim5_amended_summary_degradation stubProviders brokenDisk "v"
    ⟨["c"]⟩ (by decide) (by decide)
  ⟨by decide,
    h1.1 "garbage" (by decide) (by decide) "give me a summary" (by decide),
    h2.2 (by decide) "give me a summary"⟩

/-! ### C10 -/

/-- The transcript record path of any video differs from the summary file
path of any video: the 12-character path suffixes already differ. -/
theorem transcriptPath_ne_summaryPath (v w : String) :
    transcriptPath v ≠ summaryPath w := by
  intro h
  have h2 : (transcriptPath v).data.reverse.take 12 =
      (summaryPath w).data.reverse.take 12 := by rw [h]
  have hl : (transcriptPath v).data.reverse.take 12 = "txt.tpircsna".data := by
    simp only [transcriptPath, String.data_append, List.reverse_append]
    rw [List.take_append_of_le_length (by decide)]
    decide
  have hr : (summaryPath w).data.reverse.take 12 = "txt.yrammus_".data := by
    simp only [summaryPath, String.data_append, List.reverse_append]
    rw [List.take_append_of_le_length (by decide)]
    decide
  rw [hl, hr] at h2
  exact absurd h2 (by decide)

/-- C10: ingestion never creates any per-video summary file (`ask` checks
that file first), and in the reachable state where the FAISS directory
exists for a video while its transcript record is absent, `ask` raises an
unhandled exception from the unguarded file read, for every question. -/
theorem claim10_missing_record_crashes :
    (∀ (P : Providers) (d : Disk) (v w : String),
      ((process_video P d v).disk).files (summaryPath w) = d.files (summaryPath w)) ∧
    (∀ (P : Providers) (d : Disk) (v : String) (store : FaissStore),
      d.stores (faissPath v) = some store →
      d.files (summaryPath v) = none →
      d.files (transcriptPath v) = none →
      ∀ q, (ask_question P d v q).outcome = AskOutcome.crash "FileNotFoundError") := by
  constructor
  · intro P d v w
    have hne : summaryPath w ≠ transcriptPath v :=
      fun h => transcriptPath_ne_summaryPath v w h.symm
    simp only [process_video]
    split
    · rfl
    · split
      · rfl
      · split
        · simp [Disk.writeFile, hne]
        · simp [Disk.writeStore, Disk.writeFile, hne]
  · intro P d v store hs hsf htf q
    simp [ask_question, loadSummary, hs, hsf, htf]

/-- C10 witness: a successful ingest of `"v"` from the empty disk leaves
no summary file, and `ask` on the index-only disk crashes. -/
theorem claim10_witness :
    ((process_video stubProviders emptyDisk "v").disk).files (summaryPath "v") =
      emptyDisk.files (summaryPath "v") ∧
    brokenDisk.stores (faissPath "v") = some ⟨["c"]⟩ ∧
    brokenDisk.files (transcriptPath "v") = none ∧
    (ask_question stubProviders brokenDisk "v" "what is said about cats?").outcome =
      AskOutcome.crash "FileNotFoundError" :=
  ⟨claim10_missing_record_crashes.1 stubProviders emptyDisk "v" "v", by decide, by decide,
    claim10_missing_record_crashes.2 stubProviders brokenDisk "v" ⟨["c"]⟩
      (by decide) (by decide) (by decide) "what is said about cats?"⟩

/-! ### C6 -/

/-- Providers for a first, successful ingest: one short transcript segment,
summary text `"SUM1"`. -/
def okProviders : Providers :=
  ⟨fun _ => some ["hello world"], fun _ => some "SUM1", false, false, fun cs _ => cs⟩

/-- Providers for a re-ingest whose embedding step fails after the
transcript record has already been rewritten: new transcript, new summary
`"SUM2"`, `embedFail` set. -/
def embedFailProviders : Providers :=
  ⟨fun _ => some ["brand new text"], fun _ => some "SUM2", true, false, fun cs _ => cs⟩

/-- C6 counterexample: starting from a successfully ingested video, a
second ingest run that fails at the embedding step still rewrites the
transcript+summary record, and a subsequent GLOBAL ask serves the new
summary `"SUM2"` — a partial-success state observable by `ask` after a
failed ingest run. -/
theorem claim6_counterexample :
    (process_video embedFailProviders
        (process_video okProviders emptyDisk "v").disk "v").result =
      IngestResult.err "Embedding/FAISS failed" ∧
    (ask_question stubProviders
        (process_video embedFailProviders
          (process_video okProviders emptyDisk "v").disk "v").disk
        "v" "give me a summary").outcome =
      AskOutcome.ok (some "SUM2") "summary-mode" :=
  ⟨by decide, by decide⟩

/-- C6 amended: from a state where the video has no vector index, a failed
ingest run (any step) leaves the video unprocessed for query purposes:
every subsequent ask fails with the not-processed error, even though the
transcript+summary record may have been written. (Over a previously
indexed video, a failed re-ingest can instead leave a mixed state in which
`ask` serves the newly written summary alongside the old index.) -/
theorem claim6_amended_all_or_none_from_fresh (P P2 : Providers) (d : Disk) (v : String)
    (hnone : d.stores (faissPath v) = none) (msg : String)
    (hfail : (process_video P d v).result = IngestResult.err msg) :
    ∀ q, (ask_question P2 (process_video P d v).disk v q).outcome =
      AskOutcome.err "Video not processed. Click \x27Load Transcript\x27 first." := by
  intro q
  have hstore : ((process_video P d v).disk).stores (faissPath v) = none := by
    cases hf : P.fetchTranscript v with
    | none => simp [process_video, hf, hnone]
    | some segs =>
      cases hgen : P.generate (summaryPrompt (pySliceTo (pyJoin " " segs) 20000)) with
      | none => simp [process_video, hf, hgen, hnone]
      | some summary =>
        cases hemb : P.embedFail with
        | false => simp [process_video, hf, hgen, hemb] at hfail
        | true => simp [process_video, hf, hgen, hemb, Disk.writeFile, hnone]
  simp [ask_question, hstore]

/-- C6 witness: a failed ingest from the empty disk (embedding failure)
leaves `"v"` unprocessed: asking about it returns the not-processed error. -/
theorem claim6_witness :
    emptyDisk.stores (faissPath "v") = none ∧
    (process_video embedFailProviders emptyDisk "v").result =
      IngestResult.err "Embedding/FAISS failed" ∧
    (ask_question stubProviders (process_video embedFailProviders emptyDisk "v").disk "v"
        "what did the speaker say?").outcome =
      AskOutcome.err "Video not processed. Click \x27Load Transcript\x27 first." :=
  ⟨rfl, by decide,
    claim6_amended_all_or_none_from_fresh embedFailProviders stubProviders emptyDisk "v"
      rfl "Embedding/FAISS failed" (by decide) "what did the speaker say?"⟩

/-! ### C7 -/

/-- Providers whose generation call returns `"ANSWER"`, ranking the stored
chunks in their original order. -/
def genProviders : Providers :=
  ⟨fun _ => none, fun _ => some "ANSWER", false, false, fun cs _ => cs⟩

/-- A disk holding an ingested video `"v"` whose index stores 4 passages. -/
def fourChunkDisk : Disk :=
  (emptyDisk.writeFile (transcriptPath "v")
      "SUMMARY:\nS\n\nFULL TRANSCRIPT:\nc1 c2 c3 c4").writeStore (faissPath "v")
    ⟨["c1", "c2", "c3", "c4"]⟩

/-- A disk holding an ingested video `"v"` whose index stores a single
passage (a transcript shorter than the chunk size ingests to one chunk). -/
def oneChunkDisk : Disk :=
  (emptyDisk.writeFile (transcriptPath "v")
      "SUMMARY:\nS\n\nFULL TRANSCRIPT:\nc1").writeStore (faissPath "v") ⟨["c1"]⟩

/-- C7 counterexample: on an ingested video whose index holds a single
passage, a LOCAL ask succeeds but the similarity search returns one
passage, not 4. -/
theorem claim7_counterexample :
    (ask_question genProviders oneChunkDisk "v"
        "what did the speaker say about loyalty?").outcome =
      AskOutcome.ok (some "ANSWER") "rag-mode" ∧
    ((genProviders.rank ["c1"]
        (normalizeQuestion "what did the speaker say about loyalty?")).take 4).length = 1 ∧
    (1 : Nat) ≠ 4 :=
  ⟨by decide, by decide, by decide⟩

/-- C7 amended: a LOCAL question on an ingested video, under a ranking
that orders the stored passages: `ask` retrieves the top
`min 4 (passage count)` ranked passages — exactly 4 whenever the index
holds at least 4 passages — joins them in ranked order separated by one
blank line (`"\n\n"`), hands that context to a single generation call, and
returns its text with mode `"rag-mode"`; the trace is exactly one index
load, one `k = 4` search and one generation call. -/
theorem claim7_amended_local_retrieval (P : Providers) (d : Disk) (v q : String)
    (store : FaissStore) (summary : Option String) (answer : String)
    (hs : d.stores (faissPath v) = some store)
    (hl : loadSummary d v = some summary)
    (hg : isGlobalQuestion (normalizeQuestion q) = false)
    (hlf : P.loadFail = false)
    (hperm : List.Perm (P.rank store.chunks (normalizeQuestion q)) store.chunks)
    (hgen : P.generate (ragPrompt summary
        (pyJoin "\n\n" ((P.rank store.chunks (normalizeQuestion q)).take 4))
        (normalizeQuestion q)) = some answer) :
    ((P.rank store.chunks (normalizeQuestion q)).take 4).length =
      min 4 store.chunks.length ∧
    (4 ≤ store.chunks.length →
      ((P.rank store.chunks (normalizeQuestion q)).take 4).length = 4) ∧
    (ask_question P d v q).outcome = AskOutcome.ok (some answer) "rag-mode" ∧
    (ask_question P d v q).trace = [Event.faissLoad, Event.search 4, Event.generateCall] := by
  have hlen : ((P.rank store.chunks (normalizeQuestion q)).take 4).length =
      min 4 store.chunks.length := by
    rw [List.length_take, hperm.length_eq]
  refine ⟨hlen, fun hn => by rw [hlen]; omega, ?_, ?_⟩ <;>
    simp [ask_question, hs, hl, hg, hlf, hgen]

/-- C7 witness: a concrete LOCAL ask over a 4-passage index retrieves
exactly 4 passages. -/
theorem claim7_witness :
    isGlobalQuestion (normalizeQuestion "what did the speaker say about loyalty?") = false ∧
    (((genProviders.rank ["c1", "c2", "c3", "c4"]
        (normalizeQuestion "what did the speaker say about loyalty?")).take 4).length =
        min 4 (FaissStore.mk ["c1", "c2", "c3", "c4"]).chunks.length ∧
      (((genProviders.rank ["c1", "c2", "c3", "c4"]
          (normalizeQuestion "what did the speaker say about loyalty?")).take 4).length = 4) ∧
      (ask_question genProviders fourChunkDisk "v"
          "what did the speaker say about loyalty?").outcome =
        AskOutcome.ok (some "ANSWER") "rag-mode" ∧
      (ask_question genProviders fourChunkDisk "v"
          "what did the speaker say about loyalty?").trace =
        [Event.faissLoad, Event.search 4, Event.generateCall]) :=
  have h := claim7_amended_local_retrieval genProviders fourChunkDisk "v"
    "what did the speaker say about loyalty?" ⟨["c1", "c2", "c3", "c4"]⟩ (some "S")
    "ANSWER" (by decide) (by decide) (by decide) rfl (List.Perm.refl _) rfl
  ⟨by decide, h.1, h.2.1 (by decide), h.2.2.1, h.2.2.2⟩

/-! ### C8 -/

/-- Chunk count of `pyChunks` in the non-degenerate case. -/
theorem pyChunks_length (L O : Nat) (cs : List Char) (hOL : O < L) (hcs : cs ≠ []) :
    (pyChunks L O cs).length = 1 + (cs.length - L + (L - O) - 1) / (L - O) := by
  rw [pyChunks, if_neg hcs, if_neg (by omega : ¬ L ≤ O)]
  simp

/-- Index-wise description of `pyChunks` in the non-degenerate case. -/
theorem pyChunks_getD (L O : Nat) (cs : List Char) (hOL : O < L) (hcs : cs ≠ [])
    (i : Nat) (hi : i < 1 + (cs.length - L + (L - O) - 1) / (L - O)) :
    (pyChunks L O cs).getD i [] = (cs.drop (i * (L - O))).take L := by
  rw [pyChunks, if_neg hcs, if_neg (by omega : ¬ L ≤ O)]
  rw [List.getD_eq_getElem?_getD, List.getElem?_map, List.getElem?_range hi]
  rfl

/-- Every chunk start position lies inside the text. -/
theorem pyChunks_start_lt (L O len : Nat) (hOL : O < L) (hlen : 0 < len)
    (i : Nat) (hi : i < 1 + (len - L + (L - O) - 1) / (L - O)) :
    i * (L - O) < len := by
  by_cases hL : len ≤ L
  · have ht : (len - L + (L - O) - 1) / (L - O) = 0 := Nat.div_eq_of_lt (by omega)
    rw [ht] at hi
    have hi0 : i = 0 := by omega
    subst hi0
    simpa using hlen
  · push_neg at hL
    have h2 := Nat.div_mul_le_self (len - L + (L - O) - 1) (L - O)
    have h3 : i * (L - O) ≤ ((len - L + (L - O) - 1) / (L - O)) * (L - O) :=
      Nat.mul_le_mul_right _ (by omega)
    omega

/-- A chunk that is at least two places before the end is a full window:
its end position lies inside the text. -/
theorem pyChunks_full_len (L O len : Nat) (hOL : O < L) (i : Nat)
    (hi : i + 2 < 1 + (len - L + (L - O) - 1) / (L - O)) :
    i * (L - O) + L ≤ len := by
  by_cases hL : len ≤ L
  · exfalso
    have ht : (len - L + (L - O) - 1) / (L - O) = 0 := Nat.div_eq_of_lt (by omega)
    omega
  · push_neg at hL
    have h2 := Nat.div_mul_le_self (len - L + (L - O) - 1) (L - O)
    have h3 : (i + 1) * (L - O) ≤ ((len - L + (L - O) - 1) / (L - O)) * (L - O) :=
      Nat.mul_le_mul_right _ (by omega)
    have h5 : (i + 1) * (L - O) = i * (L - O) + (L - O) := by ring
    omega

/-- No chunk produced by `pyChunks` is empty. -/
theorem pyChunks_ne_nil (L O : Nat) (cs : List Char) (hOL : O < L) :
    ∀ p ∈ pyChunks L O cs, p ≠ [] := by
  intro p hp
  by_cases hcs : cs = []
  · subst hcs
    simp [pyChunks] at hp
  · rw [pyChunks, if_neg hcs, if_neg (by omega : ¬ L ≤ O)] at hp
    obtain ⟨i, hi, rfl⟩ := List.mem_map.mp hp
    have hi2 := List.mem_range.mp hi
    have hstart := pyChunks_start_lt L O cs.length hOL (List.length_pos.mpr hcs) i hi2
    intro hnil
    have hz : ((cs.drop (i * (L - O))).take L).length = 0 := by rw [hnil]; rfl
    simp only [List.length_take, List.length_drop] at hz
    omega

/-- Adjacent non-final chunks of `pyChunks` share an exact length-`O`
suffix/prefix overlap. -/
theorem pyChunks_overlap (L O : Nat) (cs : List Char) (hOL : O < L)
    (i : Nat) (hi : i + 1 < (pyChunks L O cs).length - 1) :
    ((pyChunks L O cs).getD i []).drop (((pyChunks L O cs).getD i []).length - O) =
      ((pyChunks L O cs).getD (i + 1) []).take O := by
  by_cases hcs : cs = []
  · subst hcs
    simp [pyChunks] at hi
  · have hlen := pyChunks_length L O cs hOL hcs
    rw [hlen] at hi
    have hi2 : i + 2 < 1 + (cs.length - L + (L - O) - 1) / (L - O) := by omega
    have hi0 : i < 1 + (cs.length - L + (L - O) - 1) / (L - O) := by omega
    have hi1 : i + 1 < 1 + (cs.length - L + (L - O) - 1) / (L - O) := by omega
    rw [pyChunks_getD L O cs hOL hcs i hi0, pyChunks_getD L O cs hOL hcs (i + 1) hi1]
    have hfull := pyChunks_full_len L O cs.length hOL i hi2
    have hlen_i : ((cs.drop (i * (L - O))).take L).length = L := by
      simp only [List.length_take, List.length_drop]
      omega
    rw [hlen_i, List.drop_take, List.drop_drop, List.take_take]
    have e1 : L - (L - O) = O := by omega
    have e2 : i * (L - O) + (L - O) = (i + 1) * (L - O) := by ring
    have e3 : min O L = O := by omega
    rw [e1, e2, e3]

/-- Reading a position of the string-level chunk list is reading the
character-level chunk list. -/
theorem getD_map_data (l : List (List Char)) (j : Nat) :
    ((l.map (fun cs => String.mk cs)).getD j "").data = l.getD j [] := by
  rw [List.getD_eq_getElem?_getD, List.getD_eq_getElem?_getD, List.getElem?_map]
  cases l[j]? <;> rfl

/-- C8: chunking any transcript with target length `L` and overlap
`O < L`: no passage is empty, and every adjacent pair `(i, i+1)` with
`i+1` before the last passage has the length-`O` suffix of passage `i`
equal to the length-`O` prefix of passage `i+1`. -/
theorem claim8_chunk_overlap_invariant (L O : Nat) (text : String) (hOL : O < L) :
    (∀ p ∈ chunkText L O text, p ≠ "") ∧
    (∀ i, i + 1 < (chunkText L O text).length - 1 →
      ((chunkText L O text).getD i "").data.drop
          (((chunkText L O text).getD i "").data.length - O) =
        ((chunkText L O text).getD (i + 1) "").data.take O) := by
  constructor
  · intro p hp
    rw [chunkText] at hp
    obtain ⟨cs, hcs, rfl⟩ := List.mem_map.mp hp
    intro hnil
    exact pyChunks_ne_nil L O text.data hOL cs hcs (congrArg String.data hnil)
  · intro i hi
    rw [chunkText, List.length_map] at hi
    rw [chunkText, getD_map_data, getD_map_data]
    exact pyChunks_overlap L O text.data hOL i hi

/-- A 70-character text: three windows at `L = 30`, `O = 5`. -/
def demoText : String :=
  "0123456789012345678901234567890123456789012345678901234567890123456789"

/-- C8 witness: the invariant at `L = 30`, `O = 5` on a concrete text with
three passages, instantiated at the adjacent pair `(0, 1)`. -/
theorem claim8_witness :
    (5 : Nat) < 30 ∧
    (chunkText 30 5 demoText).getD 0 "" ≠ "" ∧
    ((chunkText 30 5 demoText).getD 0 "").data.drop
        (((chunkText 30 5 demoText).getD 0 "").data.length - 5) =
      ((chunkText 30 5 demoText).getD 1 "").data.take 5 :=
  have h := claim8_chunk_overlap_invariant 30 5 demoText (by decide)
  ⟨by decide, h.1 ((chunkText 30 5 demoText).getD 0 "") (by decide), h.2 0 (by decide)⟩

end YTA
